import Mathlib

/-!
Verification of custom_components/rpi_gpio/valve.py.

The Python module drives latching water valves through Raspberry Pi GPIO
pins.  We embed it shallowly: the object state of `RPiGPIOValve` becomes a
record, and every method becomes a function that returns the updated record
together with the ordered list of side effects it emits (GPIO pin setup,
pin writes, sleeps, and host-framework state notifications).
-/

/-- One side effect emitted by the valve code: `setup_output(pin)`,
`write_output(pin, value)`, `sleep` (converted to milliseconds), or
`async_write_ha_state()`. -/
inductive Event where
  | setupOutput (pin : Nat)
  | writeOutput (pin : Nat) (value : Nat)
  | sleepMs (ms : Nat)
  | writeHaState
deriving DecidableEq, Repr

/-- Object state of an `RPiGPIOValve`: the attributes assigned in
`__init__` plus the mutable `_state` flag (`state` here). -/
structure ValveState where
  name : String
  unique_id : Option String
  should_poll : Bool
  assumed_state : Bool
  reports_position : Bool
  device_class : String
  supported_features : Nat
  port : Nat
  red_wire_port : Nat
  black_wire_port : Nat
  state : Bool
deriving DecidableEq, Repr

/-- Value of `homeassistant.const.DEVICE_DEFAULT_NAME`. -/
def DEVICE_DEFAULT_NAME : String := "Unnamed Device"

/-- Value of `homeassistant.components.valve.STATE_OPEN`. -/
def STATE_OPEN : String := "open"

/-- Value of `ValveDeviceClass.WATER`. -/
def WATER : String := "water"

/-- Values of the `ValveEntityFeature` flag members used by the module. -/
def FEATURE_OPEN : Nat := 1

/-- Value of `ValveEntityFeature.CLOSE`. -/
def FEATURE_CLOSE : Nat := 2

namespace RPiGPIOValve

/-- Embedding of `RPiGPIOValve.__init__`.  A Python `name` of `None` or the
empty string is falsy, so we model `name or DEVICE_DEFAULT_NAME` with the
empty string standing for the falsy case.  Returns the constructed object
state and the effects emitted during construction. -/
def init (name : String) (port red_wire_port black_wire_port : Nat)
    (unique_id : Option String) (skip_reset : Bool) :
    ValveState × List Event :=
  let v : ValveState :=
    { name := if name = "" then DEVICE_DEFAULT_NAME else name
      unique_id := unique_id
      should_poll := false
      assumed_state := true
      reports_position := false
      device_class := WATER
      supported_features := FEATURE_OPEN ||| FEATURE_CLOSE
      port := port
      red_wire_port := red_wire_port
      black_wire_port := black_wire_port
      state := false }
  (v,
    [Event.setupOutput port] ++
      if skip_reset then [] else
        [Event.writeOutput red_wire_port 1,
         Event.writeOutput black_wire_port 0,
         Event.sleepMs 500,
         Event.writeOutput port 1])

/-- Embedding of `RPiGPIOValve._pulse`: the effects of pulsing the valve
pin low, waiting 100 ms, and driving it high again. -/
def pulse (v : ValveState) : List Event :=
  [Event.writeOutput v.port 0, Event.sleepMs 100, Event.writeOutput v.port 1]

/-- Embedding of the `is_closed` property.  Its body is
`return not self._state`: it produces a boolean, touches no pin, and leaves
the object state unchanged, which the uniform method shape
(result, new state, effects) records explicitly. -/
def is_closed (v : ValveState) : Bool × ValveState × List Event :=
  (!v.state, v, [])

/-- Embedding of `RPiGPIOValve.async_open_valve`. -/
def async_open_valve (v : ValveState) : ValveState × List Event :=
  ({ v with state := false },
    [Event.writeOutput v.red_wire_port 0,
     Event.writeOutput v.black_wire_port 1,
     Event.sleepMs 500] ++ pulse v ++ [Event.writeHaState])

/-- Embedding of `RPiGPIOValve.async_close_valve`. -/
def async_close_valve (v : ValveState) : ValveState × List Event :=
  ({ v with state := true },
    [Event.writeOutput v.red_wire_port 1,
     Event.writeOutput v.black_wire_port 0,
     Event.sleepMs 500] ++ pulse v ++ [Event.writeHaState])

end RPiGPIOValve

namespace PersistentRPiGPIOValve

/-- Embedding of `PersistentRPiGPIOValve.__init__`: it forwards to the base
constructor with `skip_reset = True`. -/
def init (name : String) (port red_wire_port black_wire_port : Nat)
    (unique_id : Option String) : ValveState × List Event :=
  RPiGPIOValve.init name port red_wire_port black_wire_port unique_id true

/-- Embedding of `PersistentRPiGPIOValve.async_added_to_hass`.  The
persisted state returned by `async_get_last_state` is modelled by the
optional state label `last`; `None` is `none`.  The framework part of
`super().async_added_to_hass()` emits no GPIO effect. -/
def async_added_to_hass (last : Option String) (v : ValveState) :
    ValveState × List Event :=
  match last with
  | none => (v, [])
  | some s =>
    let v1 := { v with state := if s = STATE_OPEN then false else true }
    if v1.state then RPiGPIOValve.async_close_valve v1
    else RPiGPIOValve.async_open_valve v1

end PersistentRPiGPIOValve

/-- One entry of the `valves` list in the platform configuration, after
schema validation: required `name`, required `port`, optional unique id. -/
structure ValveConf where
  name : String
  port : Nat
  unique_id : Option String
deriving DecidableEq, Repr

/-- The validated platform configuration: the list of valve definitions
plus the two block-level shared ports. -/
structure PlatformConfig where
  valves : List ValveConf
  red_wire_port : Nat
  black_wire_port : Nat
deriving DecidableEq, Repr

/-- Value of the module constant `CONF_RED_WIRE_PORT`. -/
def CONF_RED_WIRE_PORT : String := "red_wire_port"

/-- Value of the module constant `CONF_BLACK_WIRE_PORT`. -/
def CONF_BLACK_WIRE_PORT : String := "black_wire_port"

/-- Indexing a Python list with a `str` key, as `setup_platform` does in
`valves_conf[CONF_RED_WIRE_PORT]`, raises
`TypeError: list indices must be integers or slices, not str`. -/
def listIndexStr (_xs : List ValveConf) (_key : String) : Except String Nat :=
  Except.error "TypeError: list indices must be integers or slices, not str"

/-- Embedding of `setup_platform`.  `valves_conf` is bound to the list
`config.get(CONF_VALVES)`, and every port lookup indexes that list with a
string constant; a raised exception aborts the function. -/
def setup_platform (config : PlatformConfig) :
    Except String (List ValveState × List Event) := do
  let valves_conf := config.valves
  let red ← listIndexStr valves_conf CONF_RED_WIRE_PORT
  let black ← listIndexStr valves_conf CONF_BLACK_WIRE_PORT
  let start : List ValveState × List Event :=
    ([], [Event.setupOutput red, Event.setupOutput black])
  valves_conf.foldlM
    (fun acc valve => do
      let red2 ← listIndexStr valves_conf CONF_RED_WIRE_PORT
      let black2 ← listIndexStr valves_conf CONF_BLACK_WIRE_PORT
      let (v, ev) :=
        PersistentRPiGPIOValve.init valve.name valve.port red2 black2
          valve.unique_id
      pure (acc.1 ++ [v], acc.2 ++ ev))
    start

/-- A GPIO write that may raise: the oracle `fail` says which pins fault.
Models `write_output` when the underlying hardware call can throw. -/
def write_output_f (fail : Nat → Bool) (pin _value : Nat) : Except Unit Unit :=
  if fail pin then Except.error () else Except.ok ()

/-- Embedding of `async_open_valve` over faulting writes: the pair holds
the surviving object state (unchanged when an exception escapes, since
`self._state` is assigned only after the last write) and the outcome. -/
def async_open_valve_f (fail : Nat → Bool) (v : ValveState) :
    ValveState × Except Unit Unit :=
  match write_output_f fail v.red_wire_port 0 with
  | Except.error e => (v, Except.error e)
  | Except.ok _ =>
    match write_output_f fail v.black_wire_port 1 with
    | Except.error e => (v, Except.error e)
    | Except.ok _ =>
      match write_output_f fail v.port 0 with
      | Except.error e => (v, Except.error e)
      | Except.ok _ =>
        match write_output_f fail v.port 1 with
        | Except.error e => (v, Except.error e)
        | Except.ok _ => ({ v with state := false }, Except.ok ())

/-- Embedding of `async_close_valve` over faulting writes. -/
def async_close_valve_f (fail : Nat → Bool) (v : ValveState) :
    ValveState × Except Unit Unit :=
  match write_output_f fail v.red_wire_port 1 with
  | Except.error e => (v, Except.error e)
  | Except.ok _ =>
    match write_output_f fail v.black_wire_port 0 with
    | Except.error e => (v, Except.error e)
    | Except.ok _ =>
      match write_output_f fail v.port 0 with
      | Except.error e => (v, Except.error e)
      | Except.ok _ =>
        match write_output_f fail v.port 1 with
        | Except.error e => (v, Except.error e)
        | Except.ok _ => ({ v with state := true }, Except.ok ())

/-- All configuration fields of `w` agree with those of `v`: everything in
the object state other than the mutable `_state` flag. -/
def configUnchanged (w v : ValveState) : Prop :=
  w.name = v.name ∧ w.unique_id = v.unique_id ∧
  w.should_poll = v.should_poll ∧ w.assumed_state = v.assumed_state ∧
  w.reports_position = v.reports_position ∧
  w.device_class = v.device_class ∧
  w.supported_features = v.supported_features ∧
  w.port = v.port ∧ w.red_wire_port = v.red_wire_port ∧
  w.black_wire_port = v.black_wire_port

/-- A sample valve used for concrete evaluations: port 17, red wire 22,
black wire 23, fresh from the persistent constructor. -/
def sampleValve : ValveState :=
  (PersistentRPiGPIOValve.init "Garden" 17 22 23 none).1

/-- A sample validated platform configuration: one valve on port 17, red
wire on port 22, black wire on port 23. -/
def sampleConfig : PlatformConfig :=
  { valves := [{ name := "Garden", port := 17, unique_id := none }],
    red_wire_port := 22, black_wire_port := 23 }

/-- C1: on a concrete valve the code returns `is_closed = false` right
after `async_close_valve` completes and `is_closed = true` right after
`async_open_valve` completes — exactly the opposite of the claim, because
`is_closed` returns `not self._state` while `_state` is the closed flag. -/
theorem C1_is_closed_inverted :
    (RPiGPIOValve.is_closed (RPiGPIOValve.async_close_valve sampleValve).1).1
      = false ∧
    (RPiGPIOValve.is_closed (RPiGPIOValve.async_open_valve sampleValve).1).1
      = true := by
  constructor <;> rfl

/-- C2: on a concrete valid configuration, `setup_platform` raises a
`TypeError` before configuring any port or constructing any entity,
because it indexes the `valves` list with the string port keys. -/
theorem C2_setup_platform_raises :
    setup_platform sampleConfig =
      Except.error "TypeError: list indices must be integers or slices, not str"
    := rfl

/-- C3: restoring the persisted label "open" on a concrete valve issues
exactly the open sequence, as claimed, but afterwards `is_closed` is true,
not false; dually a label "closed" issues the close sequence but leaves
`is_closed` false.  The no-persisted-state case emits nothing, as
claimed. -/
theorem C3_restore_is_closed_inverted :
    (PersistentRPiGPIOValve.async_added_to_hass (some "open") sampleValve).2 =
      [Event.writeOutput 22 0, Event.writeOutput 23 1, Event.sleepMs 500,
       Event.writeOutput 17 0, Event.sleepMs 100, Event.writeOutput 17 1,
       Event.writeHaState] ∧
    (RPiGPIOValve.is_closed
      (PersistentRPiGPIOValve.async_added_to_hass (some "open") sampleValve).1).1
      = true ∧
    (PersistentRPiGPIOValve.async_added_to_hass (some "closed") sampleValve).2 =
      [Event.writeOutput 22 1, Event.writeOutput 23 0, Event.sleepMs 500,
       Event.writeOutput 17 0, Event.sleepMs 100, Event.writeOutput 17 1,
       Event.writeHaState] ∧
    (RPiGPIOValve.is_closed
      (PersistentRPiGPIOValve.async_added_to_hass (some "closed") sampleValve).1).1
      = false ∧
    PersistentRPiGPIOValve.async_added_to_hass none sampleValve =
      (sampleValve, []) := by
  refine ⟨rfl, rfl, rfl, rfl, rfl⟩

/-- C4: constructing a concrete valve with `skip_reset` clear configures
the valve pin as an output and emits exactly the claimed reset sequence,
and the logical state is open (`_state = False`), but `is_closed` then
returns true, not false as the claim states. -/
theorem C4_init_reset_sequence :
    (RPiGPIOValve.init "Garden" 17 22 23 none false).2 =
      [Event.setupOutput 17, Event.writeOutput 22 1, Event.writeOutput 23 0,
       Event.sleepMs 500, Event.writeOutput 17 1] ∧
    (RPiGPIOValve.init "Garden" 17 22 23 none false).1.state = false ∧
    (RPiGPIOValve.is_closed (RPiGPIOValve.init "Garden" 17 22 23 none false).1).1
      = true := by
  refine ⟨rfl, rfl, rfl⟩

/-- C5: for every controller state, `async_open_valve` emits exactly
red-wire=0, black-wire=1, sleep 500 ms, valve pin=0, sleep 100 ms, valve
pin=1, then a host-framework notification, in that order, and records the
logical state open (`_state = false`). -/
theorem C5_open_valve_sequence (v : ValveState) :
    RPiGPIOValve.async_open_valve v =
      ({ v with state := false },
       [Event.writeOutput v.red_wire_port 0,
        Event.writeOutput v.black_wire_port 1,
        Event.sleepMs 500,
        Event.writeOutput v.port 0, Event.sleepMs 100,
        Event.writeOutput v.port 1,
        Event.writeHaState]) := rfl

/-- C6: for every controller state, `async_close_valve` emits exactly
red-wire=1, black-wire=0, sleep 500 ms, valve pin=0, sleep 100 ms, valve
pin=1, then a host-framework notification, in that order, and records the
logical state closed (`_state = true`). -/
theorem C6_close_valve_sequence (v : ValveState) :
    RPiGPIOValve.async_close_valve v =
      ({ v with state := true },
       [Event.writeOutput v.red_wire_port 1,
        Event.writeOutput v.black_wire_port 0,
        Event.sleepMs 500,
        Event.writeOutput v.port 0, Event.sleepMs 100,
        Event.writeOutput v.port 1,
        Event.writeHaState]) := rfl

/-- C7: for every controller state, `is_closed` returns the negation of
the stored open/closed boolean, emits no pin write or other effect, and
leaves the controller state unchanged. -/
theorem C7_is_closed_pure (v : ValveState) :
    (RPiGPIOValve.is_closed v).1 = !v.state ∧
    (RPiGPIOValve.is_closed v).2.1 = v ∧
    (RPiGPIOValve.is_closed v).2.2 = [] :=
  ⟨rfl, rfl, rfl⟩

/-- C8: whenever any GPIO write of the open or close sequence faults, the
exception escapes the call (the outcome is the error, with no retry or
fallback) and the object state — in particular the `_state` flag — is
exactly what it was before the call, since the flag is assigned only after
the final write. -/
theorem C8_fault_propagates (fail : Nat → Bool) (v : ValveState)
    (h : fail v.red_wire_port = true ∨ fail v.black_wire_port = true ∨
      fail v.port = true) :
    (async_open_valve_f fail v).2 = Except.error () ∧
    (async_open_valve_f fail v).1 = v ∧
    (async_close_valve_f fail v).2 = Except.error () ∧
    (async_close_valve_f fail v).1 = v := by
  unfold async_open_valve_f async_close_valve_f write_output_f
  cases hr : fail v.red_wire_port <;> cases hb : fail v.black_wire_port <;>
    cases hp : fail v.port <;> simp_all

/-- Witness for C8: the red wire of the sample valve is pin 22; with a
fault oracle that faults exactly pin 22, both sequences error out and the
object state survives unchanged. -/
theorem C8_fault_propagates_witness :
    (async_open_valve_f (fun p => decide (p = 22)) sampleValve).1 = sampleValve ∧
    (async_close_valve_f (fun p => decide (p = 22)) sampleValve).2 =
      Except.error () :=
  ⟨(C8_fault_propagates (fun p => decide (p = 22)) sampleValve
      (Or.inl (by decide))).2.1,
   (C8_fault_propagates (fun p => decide (p = 22)) sampleValve
      (Or.inl (by decide))).2.2.1⟩

/-- C9: the persistent constructor always passes `skip_reset = True` to
the base constructor, so construction performs only the output
configuration of the valve pin: no pin write at all, red and black wires
untouched, valve pin not driven. -/
theorem C9_persistent_init_skips_reset (name : String)
    (port red black : Nat) (uid : Option String) :
    PersistentRPiGPIOValve.init name port red black uid =
      RPiGPIOValve.init name port red black uid true ∧
    (PersistentRPiGPIOValve.init name port red black uid).2 =
      [Event.setupOutput port] := by
  constructor <;> rfl

/-- C10: `async_open_valve`, `async_close_valve`, `is_closed` and
restoration all leave every configured field (name, unique id, ports,
capability and device attributes) unchanged, mutating only the stored
state boolean. -/
theorem C10_config_fields_frame (v : ValveState) (last : Option String) :
    configUnchanged (RPiGPIOValve.async_open_valve v).1 v ∧
    configUnchanged (RPiGPIOValve.async_close_valve v).1 v ∧
    configUnchanged (RPiGPIOValve.is_closed v).2.1 v ∧
    configUnchanged (PersistentRPiGPIOValve.async_added_to_hass last v).1 v := by
  refine ⟨?_, ?_, ?_, ?_⟩
  · simp [configUnchanged, RPiGPIOValve.async_open_valve]
  · simp [configUnchanged, RPiGPIOValve.async_close_valve]
  · simp [configUnchanged, RPiGPIOValve.is_closed]
  · rcases last with _ | s
    · simp [configUnchanged, PersistentRPiGPIOValve.async_added_to_hass]
    · by_cases hs : s = STATE_OPEN <;>
        simp [configUnchanged, PersistentRPiGPIOValve.async_added_to_hass, hs,
          RPiGPIOValve.async_open_valve, RPiGPIOValve.async_close_valve]
